import Mathlib

/-!
Verification development for the MathexLab core: a shallow embedding of the
array value model (mathexlab/math/arrays.py), the tokenizer and parser
fragment (mathexlab/language/tokenizer.py, parser.py), the transpiler's
statement emission and line mapping (mathexlab/language/transpiler.py), the
execution kernel (mathexlab/kernel/executor.py, session.py) and the lazy
function loading loop (mathexlab/kernel/loader.py), together with theorems
settling the specification claims about these components.
-/

namespace MathexLab

/-! ## Scalars and dtypes

Model of the numeric payload of a `MatlabArray`.  Real (floating-point)
values are represented by rationals; the claims settled here depend only on
exact values, truncation on integer stores and the rejection of complex
stores into real buffers, not on rounding. -/

inductive Scalar where
| intS (n : Int)
| realS (q : Rat)
| cplxS (re im : Rat)
deriving DecidableEq

inductive DType where
| dint
| dreal
| dcplx
| dobject
deriving DecidableEq

/-- Truncation toward zero, as numpy casts float into an int buffer. -/
def ratTrunc (q : Rat) : Int :=
  if 0 ≤ q.num then Int.ofNat (q.num.toNat / q.den)
  else - Int.ofNat ((- q.num).toNat / q.den)

/-- numpy message raised when a complex value is stored into a real buffer. -/
def cplxCastMsg : String := "can\x27t convert complex to float"

/-- Element-assignment cast performed by `flat[idx] = val_data` /
`self._data[...] = val_data`: numpy casts the value to the buffer dtype and
raises TypeError (`none`) when a complex value is stored into a real or
integer buffer.  No promotion of the buffer ever happens. -/
def castAssign : DType → Scalar → Option Scalar
| .dint, .intS n => some (.intS n)
| .dint, .realS q => some (.intS (ratTrunc q))
| .dint, .cplxS _ _ => none
| .dreal, .intS n => some (.realS n)
| .dreal, .realS q => some (.realS q)
| .dreal, .cplxS _ _ => none
| .dcplx, .intS n => some (.cplxS n 0)
| .dcplx, .realS q => some (.cplxS q 0)
| .dcplx, .cplxS a b => some (.cplxS a b)
| .dobject, s => some s

/-- The zero of a dtype, used by `np.zeros(..., dtype=...)` during
auto-expansion. -/
def dtypeZero : DType → Scalar
| .dint => .intS 0
| .dreal => .realS 0
| .dcplx => .cplxS 0 0
| .dobject => .intS 0

/-! ## The array value (`MatlabArray`)

The model covers 2-D arrays (after `__init__` every dense buffer has rank
at least 2, and every array the claims exercise is 2-D).  `dataF` is the
buffer flattened in column-major order, so `flatten(order="F")` is the
identity on it. -/

structure Arr2 where
  rows : Nat
  cols : Nat
  dtype : DType
  dataF : List Scalar
  sparseTag : Bool
deriving DecidableEq

def sizeA (A : Arr2) : Nat := A.rows * A.cols

def shapeList (A : Arr2) : List Nat := [A.rows, A.cols]

/-! ## Python-side exceptions -/

inductive PyErr where
| nameError (missing : String)
| indexError (msg : String)
| typeError (msg : String)
| valueError (msg : String)
| synErr (msg : String)
| unsupportedModel (what : String)
deriving DecidableEq

/-- Message of the IndexError raised by `set_val` when auto-expansion is
attempted on a sparse array (arrays.py line 392). -/
def sparseExpandMsg : String := "Sparse matrix dynamic expansion not yet supported."

/-! ## Subscript parsing (`set_val`, step 1)

Mirrors the argument-parsing loop of `MatlabArray.set_val` (arrays.py
lines 318-365): each subscript resolves to a python index plus a
required-extent entry (`0` for boolean masks). -/

inductive Subsc where
| colonM
| endM
| numI (v : Int)
| numA (vs : List Int)
| boolA (bs : List Bool)
deriving DecidableEq

inductive PyIdx where
| sliceAll
| single (i : Nat)
| multi (is : List Nat)
| maskI (bs : List Bool)
deriving DecidableEq

structure ParsedArgs where
  py_indices : List PyIdx
  required_shape : List Nat
deriving DecidableEq

def parse_one (A : Arr2) (isLinear : Bool) (i : Nat) (arg : Subsc) :
    Except PyErr (PyIdx × Nat) :=
  match arg with
  | .colonM =>
      let currDim := if i < 2 then (shapeList A).getD i 1 else 1
      .ok (.sliceAll, currDim)
  | .endM =>
      let idx := if isLinear then sizeA A - 1
                 else if i < 2 then (shapeList A).getD i 1 - 1 else 0
      .ok (.single idx, idx + 1)
  | .numI v =>
      let idx := v - 1
      if idx < 0 then .error (.indexError "Index must be positive.")
      else .ok (.single idx.toNat, idx.toNat + 1)
  | .numA vs =>
      let ints := vs.map (fun v => v - 1)
      if ints.any (fun x => decide (x < 0)) then
        .error (.indexError "Index must be positive.")
      else
        let nats := ints.map Int.toNat
        match nats with
        | [] => .ok (.multi [], 0)
        | _ => .ok (.multi nats, nats.foldl max 0 + 1)
  | .boolA bs => .ok (.maskI bs, 0)

def parse_args_go (A : Arr2) (isLinear : Bool) :
    Nat → List Subsc → Except PyErr ParsedArgs
| _, [] => .ok ⟨[], []⟩
| i, a :: rest =>
    match parse_one A isLinear i a with
    | .error e => .error e
    | .ok (p, r) =>
        match parse_args_go A isLinear (i + 1) rest with
        | .error e => .error e
        | .ok pa => .ok ⟨p :: pa.py_indices, r :: pa.required_shape⟩

def parse_args (A : Arr2) (args : List Subsc) : Except PyErr ParsedArgs :=
  parse_args_go A (args.length == 1) 0 args

/-! ## Standard assignment (`set_val`, step 2)

Mirrors the `try:` block of `set_val` (arrays.py lines 372-387): the dense
2-D linear fast path via `flatten(order="F")`, and the generic
`self._data[tuple(py_indices)] = val_data` for two scalar subscripts
(the form the claims exercise; other forms are outside the modeled
fragment). -/

def setFlatAt (dt : DType) (flat : List Scalar) (idx : Nat) (v : Scalar) :
    Except PyErr (List Scalar) :=
  match castAssign dt v with
  | none => .error (.typeError cplxCastMsg)
  | some w => .ok (flat.set idx w)

def try_standard (A : Arr2) (pa : List PyIdx) (v : Scalar) : Except PyErr Arr2 :=
  if pa.length == 1 && !A.sparseTag then
    let flat := A.dataF
    match pa.headD .sliceAll with
    | .sliceAll =>
        match castAssign A.dtype v with
        | none => .error (.typeError cplxCastMsg)
        | some w => .ok { A with dataF := flat.map (fun _ => w) }
    | .single i =>
        if i < flat.length then
          match setFlatAt A.dtype flat i v with
          | .error e => .error e
          | .ok f2 => .ok { A with dataF := f2 }
        else .error (.indexError "index out of bounds")
    | .multi is =>
        if is.all (fun i => decide (i < flat.length)) then
          match castAssign A.dtype v with
          | none => .error (.typeError cplxCastMsg)
          | some w => .ok { A with dataF := is.foldl (fun f i => f.set i w) flat }
        else .error (.indexError "index out of bounds")
    | .maskI bs =>
        if bs.length == flat.length then
          match castAssign A.dtype v with
          | none => .error (.typeError cplxCastMsg)
          | some w =>
              .ok { A with dataF := (flat.zip bs).map (fun p => if p.2 then w else p.1) }
        else .error (.indexError "boolean index did not match array length")
  else
    match pa with
    | [.single i, .single j] =>
        if i < A.rows && j < A.cols then
          match castAssign A.dtype v with
          | none => .error (.typeError cplxCastMsg)
          | some w => .ok { A with dataF := A.dataF.set (j * A.rows + i) w }
        else .error (.indexError "index out of bounds")
    | _ => .error (.unsupportedModel "assignment form outside the modeled fragment")

/-- Zero-filled buffer of the expanded shape with the old buffer copied
into the leading corner (`expanded[source_slices] = self._data`),
column-major. -/
def cornerEmbed (A : Arr2) (r2 c2 : Nat) : List Scalar :=
  (List.range (r2 * c2)).map (fun k =>
    let i := k % r2
    let j := k / r2
    if i < A.rows && j < A.cols then A.dataF.getD (j * A.rows + i) (dtypeZero A.dtype)
    else dtypeZero A.dtype)

inductive SVRes where
| okA (A : Arr2)
| err (e : PyErr)
| outOfFuel
deriving DecidableEq

/-- `MatlabArray.set_val` (arrays.py lines 310-428): parse the subscripts,
try the standard assignment, and on IndexError run the dynamic-expansion
logic and retry recursively.  The python recursion is unbounded; the model
makes the call stack explicit as fuel (a `.outOfFuel` result means the
python code is still recursing at that depth). -/
def set_val : Nat → Arr2 → Scalar → List Subsc → SVRes
| 0, _, _, _ => .outOfFuel
| (fuel + 1), A, v, args =>
    match parse_args A args with
    | .error e => .err e
    | .ok pa =>
        match try_standard A pa.py_indices v with
        | .ok A2 => .okA A2
        | .error (PyErr.indexError _) =>
            if A.sparseTag then .err (.indexError sparseExpandMsg)
            else
              let isLinear := args.length == 1
              let reqSize := pa.required_shape.headD 0
              if isLinear && decide (sizeA A < reqSize) then
                let flatNew := A.dataF.take (sizeA A)
                  ++ List.replicate (reqSize - sizeA A) (dtypeZero A.dtype)
                let A3 : Arr2 :=
                  if A.cols == 1 && decide (0 < A.rows) then
                    ⟨reqSize, 1, A.dtype, flatNew, false⟩
                  else ⟨1, reqSize, A.dtype, flatNew, false⟩
                set_val fuel A3 v args
              else
                let req0 := pa.required_shape.getD 0 0
                let req1 := pa.required_shape.getD 1 0
                let r2 := if 0 < req0 then max A.rows req0 else A.rows
                let c2 := if 2 ≤ args.length && 0 < req1 then max A.cols req1 else A.cols
                let expanded : Arr2 := ⟨r2, c2, A.dtype, cornerEmbed A r2 c2, false⟩
                set_val fuel expanded v args
        | .error e => .err e

/-- `MatlabArray.__call__` with a single numeric scalar subscript
(arrays.py lines 236-242): `self._data.flatten(order="F")[idx]` with
python negative-index semantics. -/
def call_linear (A : Arr2) (v : Int) : Except PyErr Scalar :=
  let idx : Int := v - 1
  if 0 ≤ idx then
    match A.dataF[idx.toNat]? with
    | some s => .ok s
    | none => .error (.indexError "index out of bounds")
  else
    let back := (-idx).toNat
    if back ≤ A.dataF.length then
      match A.dataF[A.dataF.length - back]? with
      | some s => .ok s
      | none => .error (.indexError "index out of bounds")
    else .error (.indexError "index out of bounds")

/-! ## Attribute lookup and the pass-by-value guard

`MatlabArray.__getattr__` (arrays.py lines 134-145) delegates attribute
access only for scalar object-dtype arrays, and otherwise raises
AttributeError.  The class defines no `copy` method, so
`hasattr(a, "copy")` is decided entirely by `__getattr__`. -/

/-- Whether the wrapped item of a scalar object array itself exposes a
`copy` attribute.  Model scalars are numbers; none has one. -/
def item_hasattr_copy (_s : Scalar) : Bool := false

/-- `hasattr(A, "copy")` for a `MatlabArray`: true only when
`__getattr__` can delegate, i.e. dense, scalar, object dtype and the item
has the attribute. -/
def hasattr_copy (A : Arr2) : Bool :=
  !A.sparseTag && sizeA A == 1 && A.dtype == DType.dobject
    && item_hasattr_copy (A.dataF.getD 0 (dtypeZero A.dtype))

/-! ## Heap-level execution of generated assignments

Workspace values of array type are references to mutable python objects;
the heap makes the aliasing observable.  `assign_from_variable` executes
the code the transpiler emits for `b = a`
(`b = a.copy() if hasattr(a, "copy") else a`, transpiler.py lines
228-232). -/

def Heap : Type := List Arr2

def WsRef : Type := List (String × Nat)

def assign_from_variable (h : List Arr2) (ws : List (String × Nat))
    (tgt src : String) : Option (List Arr2 × List (String × Nat)) :=
  match ws.find? (fun p => p.1 == src) with
  | none => none
  | some p =>
      match h[p.2]? with
      | none => none
      | some arr =>
          if hasattr_copy arr then some (h ++ [arr], (tgt, h.length) :: ws)
          else some (h, (tgt, p.2) :: ws)

/-- In-place `arr.set_val(...)` on the object stored at `addr`. -/
def set_val_heap (h : List Arr2) (addr : Nat) (v : Scalar) (args : List Subsc)
    (fuel : Nat) : Option (List Arr2) :=
  match h[addr]? with
  | none => none
  | some arr =>
      match set_val fuel arr v args with
      | .okA a2 => some (h.set addr a2)
      | _ => none

/-! ## Diagnostic translation (`_handle_matlab_error`)

executor.py lines 162-213: the generated-line to source-line recovery and
the per-exception user-facing message. -/

/-- `str.isspace()` for the characters python treats as whitespace. -/
def py_isspace (c : Char) : Bool :=
  c == ' ' || c == '\t' || c == '\n' || c == '\r' || c == Char.ofNat 11 || c == Char.ofNat 12

/-- python `str.strip()` over the character list. -/
def pyStrip (cs : List Char) : List Char :=
  ((cs.dropWhile py_isspace).reverse.dropWhile py_isspace).reverse

/-- python `str.split("\n")` over the character list. -/
def splitLines : List Char → List (List Char)
| [] => [[]]
| c :: rest =>
    if c == '\n' then [] :: splitLines rest
    else
      match splitLines rest with
      | [] => [[c]]
      | l :: ls => (c :: l) :: ls

/-- python `int` of a digit string. -/
def digitsToNat (cs : List Char) : Nat :=
  cs.foldl (fun acc c => acc * 10 + (c.toNat - 48)) 0

def isPrefixList : List Char → List Char → Bool
| [], _ => true
| _ :: _, [] => false
| a :: as, b :: bs => a == b && isPrefixList as bs

def isSubList (needle : List Char) : List Char → Bool
| [] => isPrefixList needle []
| c :: cs => isPrefixList needle (c :: cs) || isSubList needle cs

def substrContains (needle hay : String) : Bool :=
  isSubList needle.toList hay.toList

/-- The ` (Line n)` suffix of a diagnostic: present when a generated-code
frame was found, with `?` when the line map has no entry for it
(executor.py lines 179-182). -/
def line_suffix (line_map : List (Nat × Nat)) (py_line : Int) : String :=
  if 0 < py_line then
    match line_map.find? (fun p => (p.1 : Int) == py_line) with
    | some p => " (Line " ++ toString p.2 ++ ")"
    | none => " (Line ?)"
  else ""

/-- The message body printed for each exception class
(executor.py lines 187-213). -/
def handle_matlab_error_message (e : PyErr) (code : String) : String :=
  match e with
  | .synErr _ => "Invalid syntax near \x27" ++ String.mk (pyStrip code.toList) ++ "\x27"
  | .nameError n => "Undefined function or variable \x27" ++ n ++ "\x27."
  | .indexError _ => "Index exceeds the number of array elements."
  | .valueError msg =>
      if substrContains "broadcast" msg || substrContains "shape" msg then
        "Matrix dimensions must agree."
      else msg
  | .typeError msg => msg
  | .unsupportedModel msg => msg

/-! ## Tokenizer (mathexlab/language/tokenizer.py)

Faithful embedding of `Tokenizer.tokenize` and its helpers.  The scanner
position is represented by the remaining character list.  The python loop
always advances the position, so `length + 1` fuel runs it to completion;
an `.outOfFuel` result never arises from `tokenize` on the inputs of the
theorems below. -/

structure Token where
  type : String
  value : String
  line : Nat
deriving DecidableEq

def quoteChar : Char := Char.ofNat 39

def quoteStr : String := String.mk [quoteChar]

def openBrace : Char := Char.ofNat 123

def closeBrace : Char := Char.ofNat 125

def closeBraceStr : String := String.mk [closeBrace]

def KEYWORDS : List String :=
  ["if", "elseif", "else", "end", "for", "while", "break", "continue",
   "global", "switch", "case", "otherwise", "try", "catch",
   "function", "return",
   "classdef", "properties", "methods", "events"]

/-- `self._peek(offset)` with the python empty-string default modeled as
the NUL character (matching no character class the scanner tests). -/
def peekC (cs : List Char) (n : Nat) : Char := cs.getD n (Char.ofNat 0)


def opChars : List Char :=
  ['+', '-', '*', '/', '^', '=', '<', '>', ':', ';', '(', ')', ',', '[',
   ']', '\\', '.', '~', '&', '|']

def punctChars : List Char :=
  ['(', ')', '[', ']', openBrace, closeBrace, '.', ',', ';']

/-- `Tokenizer._read_identifier`. -/
def read_identifier (cs : List Char) (line : Nat) : Token × List Char :=
  let taken := cs.takeWhile (fun c => c.isAlphanum || c == '_')
  (⟨"ID", String.mk taken, line⟩, cs.drop taken.length)

/-- `Tokenizer._read_number`: optional sign, integer part, decimal part
(unless the dot starts a `...` continuation), scientific notation, and the
imaginary suffix `i`/`j`. -/
def read_number (cs : List Char) (line : Nat) : Token × List Char :=
  let (sgn, r1) :=
    match cs with
    | c :: rest => if c == '+' || c == '-' then ([c], rest) else (([] : List Char), cs)
    | [] => ([], cs)
  let intPart := r1.takeWhile Char.isDigit
  let r2 := r1.drop intPart.length
  let (decPart, r3) :=
    match r2 with
    | '.' :: rest =>
        if peekC rest 0 == '.' && peekC rest 1 == '.' then (([] : List Char), r2)
        else
          let ds := rest.takeWhile Char.isDigit
          ('.' :: ds, rest.drop ds.length)
    | _ => ([], r2)
  let (sciPart, r4) :=
    match r3 with
    | c :: rest =>
        if c == 'e' || c == 'E' then
          match rest with
          | s :: rest2 =>
              if s == '+' || s == '-' then
                if (peekC rest2 0).isDigit then
                  let ds := rest2.takeWhile Char.isDigit
                  ([c, s] ++ ds, rest2.drop ds.length)
                else (([] : List Char), r3)
              else if s.isDigit then
                let ds := rest.takeWhile Char.isDigit
                (c :: ds, rest.drop ds.length)
              else ([], r3)
          | [] => ([], r3)
        else ([], r3)
    | [] => ([], r3)
  let body := sgn ++ intPart ++ decPart ++ sciPart
  match r4 with
  | c :: rest =>
      if c == 'i' || c == 'j' then
        let nxt := peekC rest 0
        if !nxt.isAlphanum && nxt != '_' then
          (⟨"NUMBER", String.mk body ++ "j", line⟩, rest)
        else (⟨"NUMBER", String.mk body, line⟩, r4)
      else (⟨"NUMBER", String.mk body, line⟩, r4)
  | [] => (⟨"NUMBER", String.mk body, line⟩, r4)

/-- `Tokenizer._read_string`, called with the position already past the
opening quote: consume up to the closing quote or the end of input, then
skip the closing quote if present. -/
def read_string (cs : List Char) (line : Nat) : Token × List Char :=
  let taken := cs.takeWhile (fun c => c != quoteChar)
  let rest := cs.drop taken.length
  (⟨"STRING", String.mk taken, line⟩, rest.drop 1)

/-- `Tokenizer._read_operator`. -/
def read_operator (cs : List Char) (line : Nat) : Token × List Char :=
  let ch := peekC cs 0
  let nxt := peekC cs 1
  if ch == '.' && (nxt == '*' || nxt == '/' || nxt == '\\' || nxt == '^' || nxt == quoteChar) then
    (⟨"OP", String.mk [ch, nxt], line⟩, cs.drop 2)
  else if (ch == '=' || ch == '~' || ch == '<' || ch == '>') && nxt == '=' then
    (⟨"OP", String.mk [ch, nxt], line⟩, cs.drop 2)
  else if (ch == '&' || ch == '|') && nxt == ch then
    (⟨"OP", String.mk [ch, nxt], line⟩, cs.drop 2)
  else if punctChars.contains ch then
    (⟨String.mk [ch], String.mk [ch], line⟩, cs.drop 1)
  else (⟨"OP", String.mk [ch], line⟩, cs.drop 1)

/-- The adjacency test deciding whether a quote is a transpose operator
(tokenizer.py lines 96-103): requires a previous token, no skipped space,
and the previous token to be an identifier, a number, or a closing
bracket/transpose. -/
def transpose_context (tokensRev : List Token) (spaceSkipped : Bool) : Bool :=
  match tokensRev with
  | [] => false
  | prev :: _ =>
      !spaceSkipped &&
        (prev.type == "ID" || prev.type == "NUMBER" ||
         prev.value == ")" || prev.value == "]" ||
         prev.value == closeBraceStr || prev.value == quoteStr)

structure LexSt where
  rest : List Char
  line : Nat
  spaceSkipped : Bool
  tokensRev : List Token

inductive LexResult where
| ok (toks : List Token)
| lexError (msg : String) (line : Nat)
| outOfFuel
deriving DecidableEq

/-- The main scanning loop of `Tokenizer.tokenize` (tokenizer.py lines
32-135), one fuel unit per iteration. -/
def tokenize_loop : Nat → LexSt → LexResult
| 0, _ => .outOfFuel
| (fuel + 1), st =>
    match st.rest with
    | [] => .ok (st.tokensRev.reverse ++ [⟨"EOF", "", st.line⟩])
    | ch :: rest1 =>
        if py_isspace ch then
          if ch == '\n' then
            tokenize_loop fuel ⟨rest1, st.line + 1, true, ⟨"NEWLINE", "\n", st.line⟩ :: st.tokensRev⟩
          else tokenize_loop fuel ⟨rest1, st.line, true, st.tokensRev⟩
        else if ch == '%' then
          tokenize_loop fuel ⟨(ch :: rest1).dropWhile (fun c => c != '\n'), st.line, true, st.tokensRev⟩
        else if ch == '.' && peekC rest1 0 == '.' && peekC rest1 1 == '.' then
          tokenize_loop fuel ⟨((ch :: rest1).drop 3).dropWhile (fun c => c != '\n'), st.line, true, st.tokensRev⟩
        else if (ch == '+' || ch == '-') && st.spaceSkipped
            && ((peekC rest1 0).isDigit || (peekC rest1 0 == '.' && (peekC rest1 1).isDigit)) then
          let (t, r) := read_number (ch :: rest1) st.line
          tokenize_loop fuel ⟨r, st.line, false, t :: st.tokensRev⟩
        else if ch.isAlpha || ch == '_' then
          let (t0, r) := read_identifier (ch :: rest1) st.line
          let t : Token :=
            if KEYWORDS.contains (String.mk (t0.value.toList.map Char.toLower)) then ⟨"KEYWORD", t0.value, t0.line⟩ else t0
          tokenize_loop fuel ⟨r, st.line, false, t :: st.tokensRev⟩
        else if ch.isDigit || (ch == '.' && (peekC rest1 0).isDigit) then
          let (t, r) := read_number (ch :: rest1) st.line
          tokenize_loop fuel ⟨r, st.line, false, t :: st.tokensRev⟩
        else if ch == quoteChar then
          if transpose_context st.tokensRev st.spaceSkipped then
            tokenize_loop fuel ⟨rest1, st.line, false, ⟨"OP", quoteStr, st.line⟩ :: st.tokensRev⟩
          else
            let (t, r) := read_string rest1 st.line
            tokenize_loop fuel ⟨r, st.line, false, t :: st.tokensRev⟩
        else if ch == '@' then
          tokenize_loop fuel ⟨rest1, st.line, false, ⟨"AT", "@", st.line⟩ :: st.tokensRev⟩
        else if ch == openBrace || ch == closeBrace then
          tokenize_loop fuel ⟨rest1, st.line, false, ⟨String.mk [ch], String.mk [ch], st.line⟩ :: st.tokensRev⟩
        else if opChars.contains ch then
          let (t, r) := read_operator (ch :: rest1) st.line
          tokenize_loop fuel ⟨r, st.line, false, t :: st.tokensRev⟩
        else .lexError "Unexpected character" st.line

/-- `Tokenizer(text).tokenize()`. -/
def tokenize (cs : List Char) : LexResult :=
  tokenize_loop (cs.length + 1) ⟨cs, 1, true, []⟩

/-! ## AST (mathexlab/language/ast_nodes.py)

One constructor per dataclass of the modeled fragment.  `Assign.target`
is either a plain variable name (a python `str`) or a Member/Call node,
exactly as the parser builds it.  Notably, no dataclass carries a source
line attribute, and nothing in parser.py attaches one dynamically. -/

inductive Node where
| numberN (value : String)
| stringN (value : String)
| variableN (name : String)
| binOp (left : Node) (op : String) (right : Node)
| unaryOp (op : String) (operand : Node)
| callN (func : Node) (args : List Node)
| memberN (target : Node) (field : String)
| rangeN (start : Node) (step : Option Node) (stop : Node)
| matrixN (rows : List (List Node))
| cellN (rows : List (List Node))
| anonFunc (args : List String) (body : Node)
| assignS (target : String) (value : Node)
| assignN (target : Node) (value : Node)
| multiAssign (targets : List String) (value : Node)
| commandN (name : String) (args : List String)
| returnN (value : Option Node)
| globalDecl (names : List String)
| breakN
| continueN

/-! ## Parser (mathexlab/language/parser.py)

Embedding of the statement/expression fragment the claims exercise:
statement dispatch with the command-syntax lookahead, assignment
detection, the precedence-climbing expression chain and postfix trailers.
The keyword-led block constructs (`if`/`for`/`function`/...) are outside
the modeled fragment and are reported as parse failures; no theorem below
feeds them to the parser.  Every recursive call consumes one unit of
fuel; the position is an index into the token list as in the source. -/

def EOFTok : Token := ⟨"EOF", "", 0⟩

/-- `self.curr()` (the token list always ends in EOF on the runs we model). -/
def currT (tk : List Token) (pos : Nat) : Token := tk.getD pos EOFTok

/-- `self.lookahead(n)` with its EOF default. -/
def lookaheadT (tk : List Token) (pos n : Nat) : Token := tk.getD (pos + n) ⟨"EOF", "", 0⟩

def commandBlockValues : List String :=
  ["(", ".", "=", ",", ";", "+", "-", "*", "/", "^", "[", String.mk [openBrace]]

/-- Target extraction of `MultiAssign` (every matrix element must be a
plain variable). -/
def pMultiTargetsRow : List Node → Option (List String)
| [] => some []
| .variableN nm :: rest =>
    match pMultiTargetsRow rest with
    | none => none
    | some ys => some (nm :: ys)
| _ :: _ => none

def pMultiTargets : List (List Node) → Option (List String)
| [] => some []
| row :: rest =>
    match pMultiTargetsRow row with
    | none => none
    | some xs =>
        match pMultiTargets rest with
        | none => none
        | some ys => some (xs ++ ys)

/-- `Parser.parse_command`: consume word arguments after the command name. -/
def pCommandArgs : Nat → List Token → Nat → String → List String → Except String (Node × Nat)
| 0, _, _, _, _ => .error "out of fuel"
| (f + 1), tk, pos, name, acc =>
    let t := currT tk pos
    if t.type == "ID" || t.type == "STRING" || t.type == "NUMBER" then
      pCommandArgs f tk (pos + 1) name (acc ++ [t.value])
    else .ok (.commandN name acc, pos)

/-- An expression entry point: the tied-back `Parser.expression` the
postfix/bracket helpers call into.  The knot is closed by `pExpression`
below. -/
def PExprFn : Type := List Token → Nat → Except String (Node × Nat)

/-- Formal-argument list of an anonymous function. -/
def pAnonArgs : Nat → List Token → Nat → List String → Except String (List String × Nat)
| 0, _, _, _ => .error "out of fuel"
| (f + 1), tk, pos, acc =>
    let t := currT tk pos
    if t.type == "ID" then
      if (currT tk (pos + 1)).value == "," then pAnonArgs f tk (pos + 2) (acc ++ [t.value])
      else if (currT tk (pos + 1)).type == ")" then .ok (acc ++ [t.value], pos + 2)
      else .error "Expected comma or closing paren"
    else if t.type == ")" then .ok (acc, pos + 1)
    else .error "Expected identifier or closing paren"

/-- `Parser.parse_call_args` (after the opening paren was consumed). -/
def pCallArgsF (pexpr : PExprFn) : Nat → List Token → Nat → List Node →
    Except String (List Node × Nat)
| 0, _, _, _ => .error "out of fuel"
| (f + 1), tk, pos, acc =>
    if (currT tk pos).value == ")" then .ok (acc, pos + 1)
    else
      match pexpr tk pos with
      | .error e => .error e
      | .ok (a, p2) =>
          if (currT tk p2).value == "," then pCallArgsF pexpr f tk (p2 + 1) (acc ++ [a])
          else if (currT tk p2).type == ")" then .ok (acc ++ [a], p2 + 1)
          else .error "Expected comma or closing paren"

/-- `Parser.parse_matrix` row loop (after the opening bracket). -/
def pMatrixRowsF (pexpr : PExprFn) : Nat → List Token → Nat → List (List Node) → List Node →
    Except String (List (List Node) × Nat)
| 0, _, _, _, _ => .error "out of fuel"
| (f + 1), tk, pos, rows, row =>
    let t := currT tk pos
    if t.type == "]" then
      .ok (if row.isEmpty then rows else rows ++ [row], pos + 1)
    else if t.type == "NEWLINE" || t.type == ";" then
      if row.isEmpty then pMatrixRowsF pexpr f tk (pos + 1) rows []
      else pMatrixRowsF pexpr f tk (pos + 1) (rows ++ [row]) []
    else if t.value == "," then pMatrixRowsF pexpr f tk (pos + 1) rows row
    else
      match pexpr tk pos with
      | .error e => .error e
      | .ok (n, p2) => pMatrixRowsF pexpr f tk p2 rows (row ++ [n])

/-- `Parser.parse_cell` row loop (after the opening brace). -/
def pCellRowsF (pexpr : PExprFn) : Nat → List Token → Nat → List (List Node) → List Node →
    Except String (List (List Node) × Nat)
| 0, _, _, _, _ => .error "out of fuel"
| (f + 1), tk, pos, rows, row =>
    let t := currT tk pos
    if t.type == String.mk [closeBrace] then
      .ok (if row.isEmpty then rows else rows ++ [row], pos + 1)
    else if t.type == "NEWLINE" || t.type == ";" then
      if row.isEmpty then pCellRowsF pexpr f tk (pos + 1) rows []
      else pCellRowsF pexpr f tk (pos + 1) (rows ++ [row]) []
    else if t.value == "," then pCellRowsF pexpr f tk (pos + 1) rows row
    else
      match pexpr tk pos with
      | .error e => .error e
      | .ok (n, p2) => pCellRowsF pexpr f tk p2 rows (row ++ [n])

/-- The postfix-trailer loop of `Parser.atom`: member access, call
arguments and the transpose operators. -/
def pTrailersF (pexpr : PExprFn) : Nat → List Token → Node → Nat → Except String (Node × Nat)
| 0, _, _, _ => .error "out of fuel"
| (f + 1), tk, node, pos =>
    let t := currT tk pos
    if t.value == "." then
      let t2 := currT tk (pos + 1)
      if t2.type == "ID" then pTrailersF pexpr f tk (.memberN node t2.value) (pos + 2)
      else .error "Expected field name"
    else if t.value == "(" then
      match pCallArgsF pexpr f tk (pos + 1) [] with
      | .error e => .error e
      | .ok (args, p2) => pTrailersF pexpr f tk (.callN node args) p2
    else if t.type == "OP" && t.value == quoteStr then
      pTrailersF pexpr f tk (.memberN node "H") (pos + 1)
    else if t.type == "OP" && t.value == String.mk ['.', quoteChar] then
      pTrailersF pexpr f tk (.memberN node "T") (pos + 1)
    else .ok (node, pos)

/-- `Parser.atom`: unary operators, `end`, function handles and anonymous
functions, literals, parenthesized expressions, the bare colon, matrix and
cell literals, followed by the trailer loop. -/
def pAtomF (pexpr : PExprFn) : Nat → List Token → Nat → Except String (Node × Nat)
| 0, _, _ => .error "out of fuel"
| (f + 1), tk, pos =>
    let t := currT tk pos
    if t.value == "-" then
      match pAtomF pexpr f tk (pos + 1) with
      | .error e => .error e
      | .ok (n, p) => .ok (.unaryOp "-" n, p)
    else if t.value == "~" then
      match pAtomF pexpr f tk (pos + 1) with
      | .error e => .error e
      | .ok (n, p) => .ok (.unaryOp "~" n, p)
    else if t.type == "KEYWORD" && t.value == "end" then
      pTrailersF pexpr f tk (.stringN "end") (pos + 1)
    else if t.type == "AT" then
      let t2 := currT tk (pos + 1)
      if t2.type == "ID" then pTrailersF pexpr f tk (.variableN t2.value) (pos + 2)
      else if t2.value == "(" then
        match pAnonArgs f tk (pos + 2) [] with
        | .error e => .error e
        | .ok (args, p2) =>
            match pexpr tk p2 with
            | .error e => .error e
            | .ok (body, p3) => pTrailersF pexpr f tk (.anonFunc args body) p3
      else .error "Expected identifier or paren after at-sign"
    else if t.type == "NUMBER" then pTrailersF pexpr f tk (.numberN t.value) (pos + 1)
    else if t.type == "STRING" then pTrailersF pexpr f tk (.stringN t.value) (pos + 1)
    else if t.type == "ID" then pTrailersF pexpr f tk (.variableN t.value) (pos + 1)
    else if t.type == "[" then
      match pMatrixRowsF pexpr f tk (pos + 1) [] [] with
      | .error e => .error e
      | .ok (rows, p2) => pTrailersF pexpr f tk (.matrixN rows) p2
    else if t.type == String.mk [openBrace] then
      match pCellRowsF pexpr f tk (pos + 1) [] [] with
      | .error e => .error e
      | .ok (rows, p2) => pTrailersF pexpr f tk (.cellN rows) p2
    else if t.value == "(" then
      match pexpr tk (pos + 1) with
      | .error e => .error e
      | .ok (n, p2) =>
          if (currT tk p2).type == ")" then pTrailersF pexpr f tk n (p2 + 1)
          else .error "Expected closing paren"
    else if t.value == ":" then pTrailersF pexpr f tk (.stringN ":") (pos + 1)
    else .error "Unexpected token"

def pPowerLoopF (pexpr : PExprFn) : Nat → List Token → Node → Nat → Except String (Node × Nat)
| 0, _, _, _ => .error "out of fuel"
| (f + 1), tk, node, pos =>
    let t := currT tk pos
    if t.value == "^" || t.value == ".^" then
      match pAtomF pexpr f tk (pos + 1) with
      | .error e => .error e
      | .ok (r, p2) => pPowerLoopF pexpr f tk (.binOp node t.value r) p2
    else .ok (node, pos)

def pPowerF (pexpr : PExprFn) : Nat → List Token → Nat → Except String (Node × Nat)
| 0, _, _ => .error "out of fuel"
| (f + 1), tk, pos =>
    match pAtomF pexpr f tk pos with
    | .error e => .error e
    | .ok (n, p) => pPowerLoopF pexpr f tk n p

def pFactorLoopF (pexpr : PExprFn) : Nat → List Token → Node → Nat → Except String (Node × Nat)
| 0, _, _, _ => .error "out of fuel"
| (f + 1), tk, node, pos =>
    let t := currT tk pos
    if t.value == "*" || t.value == "/" || t.value == "\\" || t.value == ".*"
        || t.value == "./" || t.value == ".\\" then
      match pPowerF pexpr f tk (pos + 1) with
      | .error e => .error e
      | .ok (r, p2) => pFactorLoopF pexpr f tk (.binOp node t.value r) p2
    else .ok (node, pos)

def pFactorF (pexpr : PExprFn) : Nat → List Token → Nat → Except String (Node × Nat)
| 0, _, _ => .error "out of fuel"
| (f + 1), tk, pos =>
    match pPowerF pexpr f tk pos with
    | .error e => .error e
    | .ok (n, p) => pFactorLoopF pexpr f tk n p

def pTermLoopF (pexpr : PExprFn) : Nat → List Token → Node → Nat → Except String (Node × Nat)
| 0, _, _, _ => .error "out of fuel"
| (f + 1), tk, node, pos =>
    let t := currT tk pos
    if t.value == "+" || t.value == "-" then
      match pFactorF pexpr f tk (pos + 1) with
      | .error e => .error e
      | .ok (r, p2) => pTermLoopF pexpr f tk (.binOp node t.value r) p2
    else .ok (node, pos)

def pTermF (pexpr : PExprFn) : Nat → List Token → Nat → Except String (Node × Nat)
| 0, _, _ => .error "out of fuel"
| (f + 1), tk, pos =>
    match pFactorF pexpr f tk pos with
    | .error e => .error e
    | .ok (n, p) => pTermLoopF pexpr f tk n p

/-- `Parser.range_expr`: `a:b` and `a:step:b`. -/
def pRangeExprF (pexpr : PExprFn) : Nat → List Token → Nat → Except String (Node × Nat)
| 0, _, _ => .error "out of fuel"
| (f + 1), tk, pos =>
    match pTermF pexpr f tk pos with
    | .error e => .error e
    | .ok (n, p) =>
        if (currT tk p).value == ":" then
          match pTermF pexpr f tk (p + 1) with
          | .error e => .error e
          | .ok (e1, p2) =>
              if (currT tk p2).value == ":" then
                match pTermF pexpr f tk (p2 + 1) with
                | .error e => .error e
                | .ok (e2, p3) => .ok (.rangeN n (some e1) e2, p3)
              else .ok (.rangeN n none e1, p2)
        else .ok (n, p)

def pRelationalLoopF (pexpr : PExprFn) : Nat → List Token → Node → Nat → Except String (Node × Nat)
| 0, _, _, _ => .error "out of fuel"
| (f + 1), tk, node, pos =>
    let t := currT tk pos
    if t.type == "OP" && (t.value == "==" || t.value == "~=" || t.value == "<"
        || t.value == ">" || t.value == "<=" || t.value == ">=") then
      match pRangeExprF pexpr f tk (pos + 1) with
      | .error e => .error e
      | .ok (r, p2) => pRelationalLoopF pexpr f tk (.binOp node t.value r) p2
    else .ok (node, pos)

def pRelationalF (pexpr : PExprFn) : Nat → List Token → Nat → Except String (Node × Nat)
| 0, _, _ => .error "out of fuel"
| (f + 1), tk, pos =>
    match pRangeExprF pexpr f tk pos with
    | .error e => .error e
    | .ok (n, p) => pRelationalLoopF pexpr f tk n p

def pLogicAndLoopF (pexpr : PExprFn) : Nat → List Token → Node → Nat → Except String (Node × Nat)
| 0, _, _, _ => .error "out of fuel"
| (f + 1), tk, node, pos =>
    let t := currT tk pos
    if t.type == "OP" && (t.value == "&" || t.value == "&&") then
      match pRelationalF pexpr f tk (pos + 1) with
      | .error e => .error e
      | .ok (r, p2) => pLogicAndLoopF pexpr f tk (.binOp node t.value r) p2
    else .ok (node, pos)

def pLogicAndF (pexpr : PExprFn) : Nat → List Token → Nat → Except String (Node × Nat)
| 0, _, _ => .error "out of fuel"
| (f + 1), tk, pos =>
    match pRelationalF pexpr f tk pos with
    | .error e => .error e
    | .ok (n, p) => pLogicAndLoopF pexpr f tk n p

def pLogicOrLoopF (pexpr : PExprFn) : Nat → List Token → Node → Nat → Except String (Node × Nat)
| 0, _, _, _ => .error "out of fuel"
| (f + 1), tk, node, pos =>
    let t := currT tk pos
    if t.type == "OP" && (t.value == "|" || t.value == "||") then
      match pLogicAndF pexpr f tk (pos + 1) with
      | .error e => .error e
      | .ok (r, p2) => pLogicOrLoopF pexpr f tk (.binOp node t.value r) p2
    else .ok (node, pos)

def pLogicOrF (pexpr : PExprFn) : Nat → List Token → Nat → Except String (Node × Nat)
| 0, _, _ => .error "out of fuel"
| (f + 1), tk, pos =>
    match pLogicAndF pexpr f tk pos with
    | .error e => .error e
    | .ok (n, p) => pLogicOrLoopF pexpr f tk n p

/-- `Parser.expression` = `logic_or`, with the recursion knot tied through
the fuel. -/
def pExpression : Nat → List Token → Nat → Except String (Node × Nat)
| 0, _, _ => .error "out of fuel"
| (f + 1), tk, pos => pLogicOrF (pExpression f) f tk pos

/-- `Parser.statement`: keyword dispatch (the block constructs are outside
the modeled fragment), then the command-syntax lookahead, then expression
or assignment. -/
def pStatement (f : Nat) (tk : List Token) (pos : Nat) : Except String (Node × Nat) :=
  let t := currT tk pos
  if t.type == "KEYWORD" then
    .error "keyword-led statement outside the modeled fragment"
  else if t.type == "ID" &&
      ((lookaheadT tk pos 1).type == "ID" || (lookaheadT tk pos 1).type == "STRING"
        || (lookaheadT tk pos 1).type == "NUMBER") &&
      !(commandBlockValues.contains (lookaheadT tk pos 1).value) then
    pCommandArgs f tk (pos + 1) t.value []
  else
    match pExpression f tk pos with
    | .error e => .error e
    | .ok (e, p2) =>
        if (currT tk p2).value == "=" then
          match pExpression f tk (p2 + 1) with
          | .error e2 => .error e2
          | .ok (rhs, p3) =>
              match e with
              | .variableN nm => .ok (.assignS nm rhs, p3)
              | .matrixN rows =>
                  match pMultiTargets rows with
                  | some targets => .ok (.multiAssign targets rhs, p3)
                  | none => .error "Invalid expression on left side of assignment"
              | .memberN a b => .ok (.assignN (.memberN a b) rhs, p3)
              | .callN a b => .ok (.assignN (.callN a b) rhs, p3)
              | _ => .ok (e, p3)
        else .ok (e, p2)

/-- `Parser.parse`: collect statements, skipping separators, until EOF. -/
def pProgram : Nat → List Token → Nat → List Node → Except String (List Node)
| 0, _, _, _ => .error "out of fuel"
| (f + 1), tk, pos, acc =>
    let t := currT tk pos
    if t.type == "EOF" then .ok acc.reverse
    else if t.type == "NEWLINE" || t.type == ";" then pProgram f tk (pos + 1) acc
    else
      match pStatement f tk pos with
      | .error e => .error e
      | .ok (n, pos2) => pProgram f tk pos2 (n :: acc)

/-! ## Code generator (mathexlab/language/transpiler.py, `ASTCompiler.generate`)

The per-node emission rules of the modeled fragment, at top level
(`indent_level = 0`).  The control-flow block constructs are outside the
fragment (the embedded parser never produces them). -/

def AUTO_CALL_COMMANDS : List String :=
  ["clc", "clear", "clf", "cla", "hold", "grid", "box",
   "tic", "toc", "who", "whos", "pwd", "drawnow",
   "axis", "shading", "lighting", "view", "figure", "shg"]

/-- python `repr` of a string literal. -/
def pyRepr (s : String) : String := "\x27" ++ s ++ "\x27"

/-- The pass-by-value guard wrapped around a bare-variable or member
right-hand side: `rhs.copy() if hasattr(rhs, "copy") else rhs`. -/
def copyGuard (rhs : String) : String :=
  rhs ++ ".copy() if hasattr(" ++ rhs ++ ", " ++ pyRepr "copy" ++ ") else " ++ rhs

/-- One emission step of `ASTCompiler.generate` for the modeled node
kinds, with the recursion on child nodes passed as `gen`. -/
def generateCore (gen : Node → String) (node : Node) : String :=
  match node with
  | .multiAssign targets value =>
      String.intercalate ", " targets ++ " = " ++ gen value
  | .assignN (.callN funcNode cargs) value =>
      let func_str :=
        match funcNode with
        | .variableN nm => nm
        | other => gen other
      let argsS := String.intercalate ", " (cargs.map gen)
      let val_raw := gen value
      let assign_stmt := func_str ++ ".set_val(" ++ val_raw ++ ", " ++ argsS ++ ")"
      match funcNode with
      | .variableN _ =>
          "try:\n    " ++ func_str ++ "\nexcept NameError:\n    "
            ++ func_str ++ " = mat([])\n" ++ assign_stmt
      | _ => assign_stmt
  | .assignN (.memberN mtarget mfield) value =>
      let target_str := gen mtarget ++ "." ++ mfield
      let rhs := gen value
      let rhs2 :=
        match value with
        | .variableN _ => copyGuard rhs
        | .memberN _ _ => copyGuard rhs
        | _ => rhs
      target_str ++ " = " ++ rhs2
  | .assignN other value => gen other ++ " = " ++ gen value
  | .assignS target value =>
      let rhs := gen value
      let rhs2 :=
        match value with
        | .variableN _ => copyGuard rhs
        | .memberN _ _ => copyGuard rhs
        | _ => rhs
      target ++ " = " ++ rhs2
  | .returnN none => "return"
  | .returnN (some v) => "return " ++ gen v
  | .binOp l op r =>
      let ls := gen l
      let rs := gen r
      if op == "&&" then "(" ++ ls ++ " and " ++ rs ++ ")"
      else if op == "||" then "(" ++ ls ++ " or " ++ rs ++ ")"
      else if op == "~=" then "(" ++ ls ++ " != " ++ rs ++ ")"
      else if op == ".*" then "(" ++ ls ++ ").emul(" ++ rs ++ ")"
      else if op == "./" then "(" ++ ls ++ ").ediv(" ++ rs ++ ")"
      else if op == ".^" then "(" ++ ls ++ ").epow(" ++ rs ++ ")"
      else if op == "^" then "(" ++ ls ++ " ** " ++ rs ++ ")"
      else if op == "\\" then "(" ++ ls ++ ".mldivide(" ++ rs ++ "))"
      else "(" ++ ls ++ " " ++ op ++ " " ++ rs ++ ")"
  | .unaryOp op v =>
      if op == "~" then "(~" ++ gen v ++ ")"
      else "(" ++ op ++ gen v ++ ")"
  | .breakN => "break"
  | .continueN => "continue"
  | .globalDecl names => "global " ++ String.intercalate ", " names
  | .commandN name args =>
      name ++ "(" ++ String.intercalate ", " (args.map pyRepr) ++ ")"
  | .rangeN s st e =>
      let stS := match st with | some x => gen x | none => "1"
      "arange(" ++ gen s ++ ", " ++ gen e ++ ", " ++ stS ++ ")"
  | .callN funcNode args =>
      let func_str :=
        match funcNode with
        | .variableN nm => nm
        | other => gen other
      func_str ++ "(" ++ String.intercalate ", " (args.map gen) ++ ")"
  | .memberN target field => gen target ++ "." ++ field
  | .anonFunc args body =>
      "(lambda " ++ String.intercalate ", " args ++ ": " ++ gen body ++ ")"
  | .matrixN rows =>
      "mat([" ++ String.intercalate ", "
        (rows.map (fun r => "[" ++ String.intercalate ", " (r.map gen) ++ "]")) ++ "])"
  | .cellN rows =>
      "cell([" ++ String.intercalate ", "
        (rows.map (fun r => "[" ++ String.intercalate ", " (r.map gen) ++ "]")) ++ "])"
  | .numberN v => v
  | .stringN v => if v == ":" then "colon" else pyRepr v
  | .variableN name =>
      if AUTO_CALL_COMMANDS.contains name then name ++ "()" else name

/-- `ASTCompiler.generate`, knot-tied through the fuel. -/
def generate : Nat → Node → String
| 0, _ => ""
| (f + 1), node => generateCore (generate f) node

/-! ## Statement emission and the line map
(`ASTCompiler._append_stmt`, transpiler.py lines 28-49)

For every emitted line the compiler records
`line_map[current_py_line] = getattr(stmt, "lineno", None)` when the
attribute is present.  No AST dataclass declares a `lineno` field and
nothing in parser.py ever attaches one dynamically (the only occurrence of
the name in the language package is the `getattr` default read), so the
accessor below is the constant `none`. -/

def stmt_lineno (_s : Node) : Option Nat := none

structure CompSt where
  line_map : List (Nat × Nat)
  current_py_line : Nat
deriving DecidableEq

/-- One `line_map` insertion step of the emission loop (later insertions
shadow earlier ones, like the python dict store). -/
def record_line (st : CompSt) (matlab_line : Option Nat) : CompSt :=
  match matlab_line with
  | some m => ⟨(st.current_py_line, m) :: st.line_map, st.current_py_line + 1⟩
  | none => ⟨st.line_map, st.current_py_line + 1⟩

/-- `ASTCompiler._append_stmt` at top level: skip blank generations, then
append each generated line while recording the mapping and advancing the
generated-line counter. -/
def append_stmt (f : Nat) (st : CompSt) (lines : List String) (stmt : Node) :
    CompSt × List String :=
  let generated := generate f stmt
  if pyStrip generated.toList == [] then (st, lines)
  else
    let matlab_line := stmt_lineno stmt
    (splitLines generated.toList).foldl
      (fun acc line => (record_line acc.1 matlab_line, acc.2 ++ [String.mk line]))
      (st, lines)

/-- `transpile` (transpiler.py lines 454-478): tokenize, parse, then drive
`_append_stmt` over the top-level statements, returning the generated code
and the line map. -/
def transpileM (f : Nat) (cs : List Char) :
    Except String (String × List (Nat × Nat) × List Node) :=
  match tokenize cs with
  | .ok toks =>
      match pProgram f toks 0 [] with
      | .ok stmts =>
          let res := stmts.foldl
            (fun acc s => append_stmt f acc.1 acc.2 s) ((⟨[], 1⟩ : CompSt), ([] : List String))
          .ok (String.intercalate "\n" res.2, res.1.line_map, stmts)
      | .error e => .error e
  | .lexError m _ => .error m
  | .outOfFuel => .error "out of fuel"

/-! ## Executor (mathexlab/kernel/executor.py, `execute`)

The executor model covers the suppression handling, the classification of
the generated top-level python constructs, plain-statement execution with
the single-simple-assignment echo, and the final-expression path for
simple expressions.  python `ast.parse` of the generated code is modeled
by `py_body_of`, which gives for each dialect construct the kinds of the
python statements its generated code consists of; python `exec`/`eval` of
the generated fragments is modeled by `exec_stmts`/`evalExpr`.  The
NameError-triggered lazy-loading retry loop is modeled separately by
`execute_retry` below (this model corresponds to a session without
resolvable script files, where `load_and_register` fails and the error is
surfaced). -/

inductive PyKind where
| kFuncDef
| kExprStmt
| kAssignName (name : String)
| kAssignOther
| kOther
deriving DecidableEq

/-- Kinds of the python top-level statements produced by `generate` for
one dialect statement: an indexed assignment to a plain variable becomes
a `try`/`except` guard block plus a bare `set_val` call expression; plain
assignments become python assignments to a name; member and multiple
assignments target attributes/tuples; commands and expressions become
expression statements. -/
def py_body_of : Node → List PyKind
| .assignS nm _ => [.kAssignName nm]
| .assignN (.callN (.variableN _) _) _ => [.kOther, .kExprStmt]
| .assignN (.callN _ _) _ => [.kExprStmt]
| .assignN _ _ => [.kAssignOther]
| .multiAssign _ _ => [.kAssignOther]
| .commandN _ _ => [.kExprStmt]
| .returnN _ => [.kOther]
| .globalDecl _ => [.kOther]
| .breakN => [.kOther]
| .continueN => [.kOther]
| _ => [.kExprStmt]

def concatAll {α : Type} : List (List α) → List α
| [] => []
| l :: ls => l ++ concatAll ls

def wsLookup {V : Type} (nm : String) : List (String × V) → Option V
| [] => none
| p :: rest => if p.1 == nm then some p.2 else wsLookup nm rest

def wsInsert {V : Type} (nm : String) (v : V) (ws : List (String × V)) :
    List (String × V) := (nm, v) :: ws

/-- Workspace values of the executor model (the C8 scenario binds python
ints; other value forms are outside the modeled fragment). -/
inductive MVal where
| intM (n : Int)
| strM (s : String)
deriving DecidableEq

/-- python `str()` of a workspace value, as interpolated into the echo. -/
def fmtM : MVal → String
| .intM n => toString n
| .strM s => s

/-- python `eval` of the generated expression fragment. -/
def evalExpr : Nat → List (String × MVal) → Node → Except PyErr MVal
| 0, _, _ => .error (.unsupportedModel "out of fuel")
| (f + 1), ws, e =>
    match e with
    | .numberN v =>
        if v != "" && v.toList.all Char.isDigit then .ok (.intM (digitsToNat v.toList))
        else .error (.unsupportedModel "numeric literal form outside the modeled fragment")
    | .stringN v =>
        if v == ":" then .error (.unsupportedModel "colon value outside the modeled fragment")
        else .ok (.strM v)
    | .variableN nm =>
        if AUTO_CALL_COMMANDS.contains nm then
          .error (.unsupportedModel "auto-called command outside the modeled fragment")
        else
          match wsLookup nm ws with
          | some v => .ok v
          | none => .error (.nameError nm)
    | .binOp l op r =>
        match evalExpr f ws l, evalExpr f ws r with
        | .ok (.intM a), .ok (.intM b) =>
            if op == "+" then .ok (.intM (a + b))
            else if op == "-" then .ok (.intM (a - b))
            else if op == "*" then .ok (.intM (a * b))
            else .error (.unsupportedModel "operator outside the modeled fragment")
        | .error err, _ => .error err
        | _, .error err => .error err
        | _, _ => .error (.unsupportedModel "operand outside the modeled fragment")
    | _ => .error (.unsupportedModel "expression form outside the modeled fragment")

/-- python `exec` of the generated statements: plain assignments bind the
evaluated right-hand side (the pass-by-value guard is the identity on the
immutable model values; aliasing of mutable arrays is modeled at the heap
level by `assign_from_variable`). -/
def exec_stmts (f : Nat) : List (String × MVal) → List Node →
    Except PyErr (List (String × MVal))
| ws, [] => .ok ws
| ws, s :: rest =>
    match s with
    | .assignS nm e =>
        match evalExpr f ws e with
        | .error err => .error err
        | .ok v => exec_stmts f (wsInsert nm v ws) rest
    | _ => .error (.unsupportedModel "statement form outside the modeled fragment")

def isExprKind : PyKind → Bool
| .kExprStmt => true
| _ => false

def isFuncDefKind : PyKind → Bool
| .kFuncDef => true
| _ => false

/-- `execute(code, session)` (executor.py lines 12-159): trim, strip the
trailing suppression marker, transpile, classify the generated unit, run
it, and apply the printing rules.  The result is the updated workspace,
the printed output lines, and the returned exception if any. -/
def execute_model (f : Nat) (code : String) (ws : List (String × MVal)) :
    List (String × MVal) × List String × Option PyErr :=
  let c0 := pyStrip code.toList
  if c0 == [] then (ws, [], none)
  else
    let suppress := c0.getLastD ' ' == ';'
    let c1s := if suppress then pyStrip c0.dropLast else c0
    let c1 := String.mk c1s
    match transpileM f c1s with
    | .error _ =>
        (ws, ["Error: Invalid syntax near \x27" ++ c1 ++ "\x27"], some (.synErr c1))
    | .ok (_py, line_map, stmts) =>
        let kinds := concatAll (stmts.map py_body_of)
        if isFuncDefKind (kinds.headD .kOther) then (ws, [], none)
        else if isExprKind (kinds.getLastD .kOther) then
          if stmts.all (fun s => (py_body_of s).length == 1) then
            match stmts.getLast? with
            | none => (ws, [], none)
            | some lastStmt =>
                match exec_stmts f ws (stmts.dropLast) with
                | .error e =>
                    (ws, [handle_matlab_error_message e c1 ++ line_suffix line_map 1], some e)
                | .ok ws2 =>
                    match evalExpr f ws2 lastStmt with
                    | .error e =>
                        (ws2, [handle_matlab_error_message e c1 ++ line_suffix line_map 1], some e)
                    | .ok v =>
                        let ws3 := wsInsert "ans" v ws2
                        if !suppress then (ws3, ["ans = " ++ fmtM v], none)
                        else (ws3, [], none)
          else (ws, [], some (.unsupportedModel "unit form outside the modeled fragment"))
        else
          match exec_stmts f ws stmts with
          | .error e =>
              (ws, [handle_matlab_error_message e c1 ++ line_suffix line_map 1], some e)
          | .ok ws2 =>
              if !suppress && kinds.length == 1 then
                match kinds.headD .kOther with
                | .kAssignName nm =>
                    match wsLookup nm ws2 with
                    | some v => (ws2, [nm ++ " = " ++ fmtM v], none)
                    | none => (ws2, [nm ++ " = None"], none)
                | _ => (ws2, [], none)
              else (ws2, [], none)

/-! ## NameError-triggered lazy loading
(executor.py lines 134-152, loader.py `load_and_register`)

On a NameError, `execute` extracts the missing identifier, asks the
loader/registry for it, and on success binds the resolved callable into
the live workspace and re-runs the whole call; on failure the error is
handled and returned.  `run` models one transpile-and-run of the fixed
code unit against a workspace (returning the final workspace, or the
missing name together with the workspace as mutated up to the failure);
`load_and_register` composed with `registry.get` is modeled as a partial
map from names to callables.  The python recursion carries no explicit
bound; the fuel makes the call stack explicit. -/

inductive RunRes (V : Type) where
| success (ws : List (String × V))
| nameErr (missing : String) (ws : List (String × V))
| otherErr (ws : List (String × V))

inductive ExecOutcome (V : Type) where
| okOut (ws : List (String × V))
| errOut (ws : List (String × V))
| fuelOut

def execute_retry {V : Type} (run : List (String × V) → RunRes V)
    (load_and_register : String → Option V) :
    Nat → List (String × V) → ExecOutcome V
| 0, _ => .fuelOut
| (f + 1), ws =>
    match run ws with
    | .success ws2 => .okOut ws2
    | .otherErr ws2 => .errOut ws2
    | .nameErr nm ws2 =>
        match load_and_register nm with
        | some fn => execute_retry run load_and_register f (wsInsert nm fn ws2)
        | none => .errOut ws2

/-! ## Session workspace and `clear`
(mathexlab/kernel/session.py, `KernelSession.reset` / `_clear_user`)

`reset` rebuilds the workspace from the constants dict (which includes
`"ans": 0`) followed by the builtin-function batches, then snapshots every
present key as the protected set (`self._builtins_set`).  The workspace is
an association list in which the first match wins, so later `update`
batches are placed in front.  `clear_all` is the no-argument
(clear-everything) path of `_clear_user`: every key in the protected
snapshot is kept untouched, a non-protected `"ans"` would be reset to
zero, and every other key is deleted. -/

inductive SVal where
| numV (n : Int)
| fnV (tag : String)
deriving DecidableEq

/-- The constants batch of `reset` (session.py lines 179-187); the numeric
values of the mathematical constants are irrelevant to the claims and
abstracted as integers, except the reserved last-result entry
`"ans" : 0`. -/
def constants_entries : List (String × SVal) :=
  [("pi", .numV 3), ("e", .numV 2), ("i", .numV 0), ("j", .numV 0),
   ("nan", .numV 0), ("inf", .numV 0), ("ans", .numV 0)]

/-- `reset`: the constants batch followed by every further builtin batch
(`later` collects the array constructors, math functions, toolbox entries
and so on; later batches shadow earlier entries under first-match
lookup). -/
def reset_globals (later : List (String × SVal)) : List (String × SVal) :=
  later ++ constants_entries

/-- The protected snapshot `self._builtins_set = set(self.globals.keys())`
taken at the end of `reset`. -/
def builtins_set (later : List (String × SVal)) : List String :=
  (reset_globals later).map Prod.fst

/-- The clear-all path of `_clear_user` (session.py lines 427-439): for
each key of the workspace, a protected key is kept untouched, a
non-protected `"ans"` is reset to zero, and every other key is deleted. -/
def clear_all (bs : List String) : List (String × SVal) → List (String × SVal)
| [] => []
| p :: rest =>
    if bs.contains p.1 then p :: clear_all bs rest
    else if p.1 == "ans" then (p.1, .numV 0) :: clear_all bs rest
    else clear_all bs rest

/-! ## Construction-time rank normalization
(`MatlabArray.__init__`, arrays.py lines 89-93)

After wrapping, a dense buffer of rank 0 is reshaped to 1x1 and a rank-1
buffer of length n to a 1xn row; higher ranks are kept.  Every operation
that yields an array (arithmetic, indexing reads, transpose) returns
`MatlabArray(...)`, i.e. passes its result buffer through this
normalization again. -/

def normalize_shape : List Nat → List Nat
| [] => [1, 1]
| [n] => [1, n]
| s => s

/-- Shape of `MatlabArray(self._data.T)` (the `T` property): numpy
transposition reverses the axes and the constructor re-normalizes. -/
def transpose_shape (s : List Nat) : List Nat := normalize_shape s.reverse

/-- Shape of a scalar read `MatlabArray(flat[idx])`: a rank-0 buffer
passed through the constructor. -/
def read_scalar_shape : List Nat := normalize_shape []

/-! ## Concrete scenarios used by the claim theorems -/

deriving instance DecidableEq for Except

/-- A dense 2x2 integer array (the failing input of the boolean-mask
divergence). -/
def c3_mask_arr : Arr2 := ⟨2, 2, .dint, [.intS 1, .intS 2, .intS 3, .intS 4], false⟩

/-- The registry stub of the lazy-resolution scenario: resolving `foo`
yields the callable `7`. -/
def c5_load : String → Option Nat := fun nm => if nm == "foo" then some 7 else none

/-- One transpile-and-run of `foo(2)`: a NameError on `foo` while it is
unbound, and a successful run binding `ans` to the call result `14` once
`foo` is bound. -/
def c5_run : List (String × Nat) → RunRes Nat := fun ws =>
  match wsLookup "foo" ws with
  | some _ => .success (wsInsert "ans" 14 ws)
  | none => .nameErr "foo" ws

/-- A session workspace after `x = 5` and `ans = 42` were executed on a
freshly reset session with one extra builtin. -/
def c6_globals : List (String × SVal) :=
  ("ans", .numV 42) :: ("x", .numV 5) :: reset_globals [("sin", .fnV "sin")]

/-! ## Supporting lemmas -/

theorem takeWhile_neq_all {rest2 : List Char}
    (h : rest2.all (fun c => c != quoteChar) = true) :
    rest2.takeWhile (fun c => c != quoteChar) = rest2 := by
  induction rest2 with
  | nil => rfl
  | cons c cs ih =>
      simp only [List.all_cons, Bool.and_eq_true] at h
      simp [List.takeWhile_cons, h.1, ih h.2]

theorem get?_set_self {α : Type} (l : List α) (n : Nat) (a : α) (h : n < l.length) :
    (l.set n a)[n]? = some a := by
  induction l generalizing n with
  | nil => simp at h
  | cons x xs ih =>
      cases n with
      | zero => simp
      | succ m => simpa using ih m (by simpa using h)

theorem contains_of_mem {a : String} {l : List String} (h : a ∈ l) :
    l.contains a = true := by
  induction l with
  | nil => cases h
  | cons b bs ih =>
      rw [List.contains_cons]
      cases h with
      | head => simp
      | tail _ hm => rw [ih hm]; simp

theorem wsLookup_insert_self {V : Type} (nm : String) (v : V) (ws : List (String × V)) :
    wsLookup nm (wsInsert nm v ws) = some v := by
  simp [wsLookup, wsInsert]

/-- `parse_args` on one positive numeric scalar subscript. -/
theorem parse_args_one_pos (A : Arr2) (i : Int) (hi : 1 ≤ i) :
    parse_args A [.numI i] = .ok ⟨[.single (i - 1).toNat], [(i - 1).toNat + 1]⟩ := by
  have hi' : ¬(i - 1 < 0) := by omega
  simp [parse_args, parse_args_go, parse_one, hi']

/-- `parse_args` on two positive numeric scalar subscripts. -/
theorem parse_args_two_pos (A : Arr2) (i j : Int) (hi : 1 ≤ i) (hj : 1 ≤ j) :
    parse_args A [.numI i, .numI j]
      = .ok ⟨[.single (i - 1).toNat, .single (j - 1).toNat],
             [(i - 1).toNat + 1, (j - 1).toNat + 1]⟩ := by
  have hi' : ¬(i - 1 < 0) := by omega
  have hj' : ¬(j - 1 < 0) := by omega
  simp [parse_args, parse_args_go, parse_one, hi', hj']

/-- The standard assignment on two out-of-bounds scalar subscripts raises
IndexError. -/
theorem try_standard_two_oob (A : Arr2) (v : Scalar) (i0 j0 : Nat)
    (hcond : (i0 < A.rows && j0 < A.cols) = false) :
    try_standard A [.single i0, .single j0] v
      = .error (.indexError "index out of bounds") := by
  simp only [try_standard, List.length_cons, List.length_nil]
  rw [show ((0 + 1 + 1 : Nat) == 1) = false from rfl]
  simp only [Bool.false_and, Bool.false_eq_true, if_false, hcond]

/-- The dense linear fast path on an in-bounds scalar subscript stores
the cast value. -/
theorem try_standard_lin_ok (A : Arr2) (v : Scalar) (i0 : Nat)
    (hsp : A.sparseTag = false)
    (h2 : i0 < A.dataF.length)
    (hc : castAssign A.dtype v = some v) :
    try_standard A [.single i0] v = .ok { A with dataF := A.dataF.set i0 v } := by
  simp only [try_standard, List.length_cons, List.length_nil, hsp, Bool.not_false,
    Bool.and_true, List.headD]
  rw [show ((0 + 1 : Nat) == 1) = true from rfl]
  simp only [if_true, h2, if_pos, setFlatAt, hc]

/-- `"ans"` is always a member of the protected snapshot taken by
`reset`, whatever the builtin batches contribute. -/
theorem ans_contains_builtins (later : List (String × SVal)) :
    (builtins_set later).contains "ans" = true := by
  apply contains_of_mem
  simp only [builtins_set, reset_globals, List.map_append]
  exact List.mem_append_right _ (by decide)

/-- Every shape the `MatlabArray` constructor produces has rank at
least 2. -/
theorem normalize_shape_rank (s : List Nat) : 2 ≤ (normalize_shape s).length := by
  match s with
  | [] => decide
  | [a] => simp [normalize_shape]
  | a :: b :: t => simp [normalize_shape]

/-- `_read_string` on input with no closing quote consumes everything. -/
theorem read_string_unterminated (rest2 : List Char) (line : Nat)
    (hnoq : rest2.all (fun c => c != quoteChar) = true) :
    read_string rest2 line = (⟨"STRING", String.mk rest2, line⟩, []) := by
  unfold read_string
  rw [takeWhile_neq_all hnoq]
  simp [List.drop_length]

/-- The emission fold with no source-line attribute never extends the
line map. -/
theorem emit_fold_line_map (L : List (List Char)) (st : CompSt) (lines : List String) :
    ((L.foldl (fun acc line => (record_line acc.1 none, acc.2 ++ [String.mk line]))
        (st, lines)).1).line_map = st.line_map := by
  induction L generalizing st lines with
  | nil => rfl
  | cons l ls ih => exact ih ⟨st.line_map, st.current_py_line + 1⟩ (lines ++ [String.mk l])

theorem append_stmt_line_map (f : Nat) (st : CompSt) (lines : List String) (stmt : Node) :
    ((append_stmt f st lines stmt).1).line_map = st.line_map := by
  unfold append_stmt
  by_cases h : (pyStrip (generate f stmt).toList == []) = true
  · rw [if_pos h]
  · rw [if_neg h]
    exact emit_fold_line_map _ st lines

theorem drive_fold_line_map (stmts : List Node) (f : Nat) (acc : CompSt × List String) :
    ((stmts.foldl (fun acc s => append_stmt f acc.1 acc.2 s) acc).1).line_map
      = acc.1.line_map := by
  induction stmts generalizing acc with
  | nil => rfl
  | cons s rest ih =>
      rw [List.foldl_cons, ih]
      exact append_stmt_line_map f acc.1 acc.2 s

/-- No AST node carries a source line, so the line map produced by any
successful transpilation is empty. -/
theorem transpileM_line_map_empty (f : Nat) (cs : List Char) (py : String)
    (lm : List (Nat × Nat)) (stmts : List Node)
    (h : transpileM f cs = .ok (py, lm, stmts)) : lm = [] := by
  unfold transpileM at h
  cases htk : tokenize cs with
  | ok toks =>
      simp only [htk] at h
      cases hpr : pProgram f toks 0 [] with
      | ok sts =>
          simp only [hpr, Except.ok.injEq, Prod.mk.injEq] at h
          rw [← h.2.1]
          exact drive_fold_line_map sts f (⟨[], 1⟩, [])
      | error e => simp only [hpr] at h; cases h
  | lexError m l => simp only [htk] at h; cases h
  | outOfFuel => simp only [htk] at h; cases h

/-! ## Claim theorems -/

/-- Claim C1: the spec requires the diagnostic of a statement that raises
at runtime to carry that statement's original source line, recovered via
the generated-line map.  The code cannot do this: the parser never
attaches a `lineno` attribute to any AST node, so the line map built
during code generation is empty for every unit.  For the 3-statement unit
`a = 1 / b = a(5) / c = 2`, whose 2nd statement raises at runtime at
generated line 2, the transpiler's line map is empty and the emitted
diagnostic suffix is ` (Line ?)`, not the claimed ` (Line 2)`. -/
theorem C1_line_map_never_populated :
    (match transpileM 100 ("a = 1\nb = a(5)\nc = 2").toList with
     | .ok (_, lm, _) => lm
     | .error _ => [(0, 0)]) = []
    ∧ line_suffix [] 2 = " (Line ?)"
    ∧ " (Line ?)" ≠ " (Line 2)" := by
  refine ⟨by decide, by decide, by decide⟩

/-- Claim C2: the spec requires `b = a` to bind `b` to a value copy of
`a`.  The generated guard `b = a.copy() if hasattr(a, "copy") else a`
finds no `copy` attribute on a numeric `MatlabArray` (`__getattr__`
delegates only for scalar object-dtype arrays), so `b` aliases the same
object: after `a = [1 2 3]; b = a; a(1) = 9`, reading `b(1)` yields `9`,
not the original `1`. -/
theorem C2_assignment_aliases_not_copies :
    assign_from_variable [⟨1, 3, .dint, [.intS 1, .intS 2, .intS 3], false⟩] [("a", 0)] "b" "a"
      = some ([⟨1, 3, .dint, [.intS 1, .intS 2, .intS 3], false⟩], [("b", 0), ("a", 0)])
    ∧ set_val_heap [⟨1, 3, .dint, [.intS 1, .intS 2, .intS 3], false⟩] 0 (.intS 9) [.numI 1] 1
      = some [⟨1, 3, .dint, [.intS 9, .intS 2, .intS 3], false⟩]
    ∧ call_linear ⟨1, 3, .dint, [.intS 9, .intS 2, .intS 3], false⟩ 1 = .ok (.intS 9)
    ∧ hasattr_copy ⟨1, 3, .dint, [.intS 1, .intS 2, .intS 3], false⟩ = false
    ∧ Scalar.intS 9 ≠ .intS 1 := by
  refine ⟨by decide, by decide, by decide, by decide, by decide⟩

/-- Claim C3: the spec requires the auto-expansion retry to terminate,
surfacing the original error when the resolved bounds do not grow — in
particular on an out-of-bounds boolean-mask subscript.  The code has no
such guard: on a dense 2x2 array with a length-5 boolean mask the
expansion step rebuilds the same shape and retries, so `set_val` recurses
at every call-stack depth (python eventually dies with RecursionError
instead of surfacing the original IndexError). -/
theorem C3_boolean_mask_expansion_diverges :
    ∀ n : Nat,
      set_val n c3_mask_arr (.intS 0) [.boolA [true, true, true, true, true]] = .outOfFuel := by
  intro n
  induction n with
  | zero => rfl
  | succ k ih => exact ih

/-- Claim C4 (counterexample): the claim says sparse out-of-bounds
indexed assignment fails with a Dimension error converted to the
user-facing diagnostic `matrix dimensions must agree`.  On a sparse 2x2
array, `S(3,3) = 7` in fact raises an IndexError (`Sparse matrix dynamic
expansion not yet supported.`), which the executor converts to the
index-out-of-bounds diagnostic — not the dimension diagnostic. -/
theorem C4_sparse_diagnostic_counterexample :
    set_val 1 ⟨2, 2, .dreal, [.realS 0, .realS 0, .realS 0, .realS 0], true⟩ (.realS 7)
        [.numI 3, .numI 3]
      = .err (.indexError sparseExpandMsg)
    ∧ handle_matlab_error_message (.indexError sparseExpandMsg) "S(3,3) = 7"
      = "Index exceeds the number of array elements."
    ∧ "Index exceeds the number of array elements." ≠ "Matrix dimensions must agree." := by
  refine ⟨by decide, by decide, by decide⟩

/-- Claim C4 (amended): for every sparse-stored array, an indexed
assignment whose subscripts exceed the current bounds does not
auto-expand and fails with an IndexError carrying the message
`Sparse matrix dynamic expansion not yet supported.`, which the executor
converts to the diagnostic `Index exceeds the number of array
elements.` (an index-out-of-bounds diagnostic, not a dimension one). -/
theorem C4_sparse_assignment_reports_index_error (A : Arr2) (v : Scalar) (i j : Int) (n : Nat)
    (hs : A.sparseTag = true)
    (hi : 1 ≤ i) (hj : 1 ≤ j)
    (hoob : ¬((i - 1).toNat < A.rows ∧ (j - 1).toNat < A.cols)) :
    set_val (n + 1) A v [.numI i, .numI j] = .err (.indexError sparseExpandMsg)
    ∧ handle_matlab_error_message (.indexError sparseExpandMsg) "S(3,3) = 7"
      = "Index exceeds the number of array elements." := by
  have hcond : ((i - 1).toNat < A.rows && (j - 1).toNat < A.cols) = false := by
    rw [Bool.and_eq_false_iff]
    by_cases h : (i - 1).toNat < A.rows
    · right; simp only [decide_eq_false_iff_not]; exact fun hc => hoob ⟨h, hc⟩
    · left; simp only [decide_eq_false_iff_not]; exact h
  refine ⟨?_, by decide⟩
  simp only [set_val, parse_args_two_pos A i j hi hj,
    try_standard_two_oob A v _ _ hcond, hs, if_true]

theorem C4_sparse_assignment_reports_index_error_witness :
    (⟨2, 2, DType.dreal, [Scalar.realS 0, .realS 0, .realS 0, .realS 0], true⟩ : Arr2).sparseTag
      = true
    ∧ set_val (0 + 1) ⟨2, 2, .dreal, [.realS 0, .realS 0, .realS 0, .realS 0], true⟩ (.realS 7)
        [.numI 3, .numI 3] = .err (.indexError sparseExpandMsg) := by
  refine ⟨rfl, ?_⟩
  exact (C4_sparse_assignment_reports_index_error
    ⟨2, 2, .dreal, [.realS 0, .realS 0, .realS 0, .realS 0], true⟩ (.realS 7) 3 3 0
    rfl (by decide) (by decide) (by decide)).1

/-- Claim C5: on an unresolved-name failure, `execute` extracts the
missing identifier, asks the registry to `load_and_register` it, binds
the resolved callable into the workspace and retries the whole call once;
the retry is transparent (the outcome is success and `ans` holds the
call's return value), and a name the registry cannot resolve is surfaced
as a genuine error without a retry. -/
theorem C5_lazy_resolution_retry_transparent {V : Type}
    (run : List (String × V) → RunRes V)
    (load_and_register : String → Option V) (ws0 : List (String × V)) (fv rv : V) (n : Nat)
    (hload : load_and_register "foo" = some fv)
    (h0 : wsLookup "foo" ws0 = none)
    (hmiss : ∀ ws, wsLookup "foo" ws = none → run ws = .nameErr "foo" ws)
    (hhit : ∀ ws, wsLookup "foo" ws = some fv → run ws = .success (wsInsert "ans" rv ws)) :
    execute_retry run load_and_register (n + 2) ws0
      = .okOut (wsInsert "ans" rv (wsInsert "foo" fv ws0))
    ∧ wsLookup "ans" (wsInsert "ans" rv (wsInsert "foo" fv ws0)) = some rv
    ∧ (∀ (nm : String) (ws : List (String × V)), load_and_register nm = none →
        run ws = .nameErr nm ws →
        execute_retry run load_and_register (n + 2) ws = .errOut ws) := by
  refine ⟨?_, wsLookup_insert_self _ _ _, ?_⟩
  · show execute_retry run load_and_register (n + 1 + 1) ws0 = _
    have e1 := hmiss ws0 h0
    have e2 := hhit (wsInsert "foo" fv ws0) (wsLookup_insert_self _ _ _)
    simp only [execute_retry, e1, hload, e2]
  · intro nm ws hl hr
    show execute_retry run load_and_register (n + 1 + 1) ws = _
    simp only [execute_retry, hr, hl]

theorem C5_lazy_resolution_retry_transparent_witness :
    c5_load "foo" = some 7
    ∧ execute_retry c5_run c5_load (0 + 2) [] = .okOut [("ans", 14), ("foo", 7)] := by
  refine ⟨rfl, ?_⟩
  have h := C5_lazy_resolution_retry_transparent c5_run c5_load [] 7 14 0 rfl rfl
    (fun ws hws => by unfold c5_run; rw [hws])
    (fun ws hws => by unfold c5_run; rw [hws])
  exact h.1

/-- Claim C6 (counterexample): the claim says `clear()` resets the
reserved name `ans` to a zero value.  `reset` places `ans` in the
protected snapshot, so the clear-all loop skips it before the reset
branch is reached: with `ans = 42` in the workspace, `clear()` leaves
`ans` at `42`, not zero (while the user name `x` is removed and the
protected `sin` kept). -/
theorem C6_ans_not_reset_counterexample :
    wsLookup "ans" (clear_all (builtins_set [("sin", .fnV "sin")]) c6_globals)
      = some (SVal.numV 42)
    ∧ SVal.numV 42 ≠ SVal.numV 0
    ∧ wsLookup "x" (clear_all (builtins_set [("sin", .fnV "sin")]) c6_globals) = none
    ∧ wsLookup "sin" (clear_all (builtins_set [("sin", .fnV "sin")]) c6_globals)
      = some (SVal.fnV "sin") := by
  refine ⟨by decide, by decide, by decide, by decide⟩

/-- Claim C6 (amended): after `clear()` with no arguments, every name
outside the protected snapshot is absent from the workspace and every
protected name (including `ans`, which `reset` always places in the
snapshot) remains present with its value unchanged; `ans` is therefore
retained as-is, not reset to zero. -/
theorem C6_clear_preserves_protected_removes_user (bs : List String)
    (g : List (String × SVal)) (nm : String)
    (hans : bs.contains "ans" = true) :
    (bs.contains nm = false → wsLookup nm (clear_all bs g) = none)
    ∧ (bs.contains nm = true → wsLookup nm (clear_all bs g) = wsLookup nm g) := by
  induction g with
  | nil => exact ⟨fun _ => rfl, fun _ => rfl⟩
  | cons p rest ih =>
      constructor
      · intro hnm
        rw [clear_all]
        by_cases h1 : bs.contains p.1 = true
        · rw [if_pos h1]
          have hne : (p.1 == nm) = false := by
            by_cases h2 : p.1 = nm
            · rw [h2] at h1; rw [h1] at hnm; cases hnm
            · exact beq_eq_false_iff_ne.mpr h2
          rw [wsLookup, hne]
          exact ih.1 hnm
        · rw [if_neg h1]
          have hne : (p.1 == "ans") = false := by
            by_cases h2 : p.1 = "ans"
            · rw [h2] at h1; exact absurd hans h1
            · exact beq_eq_false_iff_ne.mpr h2
          rw [hne]
          simp only [Bool.false_eq_true, if_false]
          exact ih.1 hnm
      · intro hnm
        rw [clear_all]
        by_cases h1 : bs.contains p.1 = true
        · rw [if_pos h1, wsLookup, wsLookup]
          by_cases h2 : (p.1 == nm) = true
          · rw [h2]; rfl
          · rw [beq_eq_false_iff_ne.mpr (by intro h; exact h2 (beq_iff_eq.mpr h))]
            exact ih.2 hnm
        · rw [if_neg h1]
          have hne : (p.1 == "ans") = false := by
            by_cases h2 : p.1 = "ans"
            · rw [h2] at h1; exact absurd hans h1
            · exact beq_eq_false_iff_ne.mpr h2
          rw [hne]
          simp only [Bool.false_eq_true, if_false]
          have hne2 : (p.1 == nm) = false := by
            by_cases h2 : p.1 = nm
            · rw [h2] at h1; rw [hnm] at h1; cases h1 rfl
            · exact beq_eq_false_iff_ne.mpr h2
          rw [wsLookup, hne2]
          simp only [Bool.false_eq_true, if_false]
          exact ih.2 hnm

theorem C6_clear_preserves_protected_removes_user_witness :
    (builtins_set [("sin", SVal.fnV "sin")]).contains "ans" = true
    ∧ wsLookup "x" (clear_all (builtins_set [("sin", SVal.fnV "sin")]) c6_globals) = none := by
  refine ⟨ans_contains_builtins _, ?_⟩
  exact (C6_clear_preserves_protected_removes_user (builtins_set [("sin", SVal.fnV "sin")])
    c6_globals "x" (ans_contains_builtins _)).1 (by decide)

/-- Claim C7 (counterexample): the claim says writing `A(i) = v` and
reading `A(i)` returns `v`, with a complex value promoting a real array.
On an integer array, writing `2.5` stores the truncated `2`, so the
read-back differs from `v`; and writing a complex value into a real
array raises a TypeError instead of promoting the array. -/
theorem C7_roundtrip_promotion_counterexample :
    set_val 1 ⟨1, 2, .dint, [.intS 1, .intS 2], false⟩ (.realS (mkRat 5 2)) [.numI 1]
      = .okA ⟨1, 2, .dint, [.intS 2, .intS 2], false⟩
    ∧ call_linear ⟨1, 2, .dint, [.intS 2, .intS 2], false⟩ 1 = .ok (.intS 2)
    ∧ Scalar.intS 2 ≠ .realS (mkRat 5 2)
    ∧ set_val 1 ⟨1, 2, .dreal, [.realS 1, .realS 2], false⟩ (.cplxS 1 1) [.numI 1]
      = .err (.typeError cplxCastMsg) := by
  refine ⟨by decide, by decide, by decide, by decide⟩

/-- Claim C7 (amended): for every dense array, in-bounds 1-based index
`i` and value `v` that is exactly representable in the array's dtype
(the element-assignment cast fixes it), writing `A(i) = v` via `set_val`
and then reading `A(i)` returns `v`.  No dtype promotion happens: a value
outside the dtype is truncated or rejected, never stored widened. -/
theorem C7_roundtrip_for_representable_values (A : Arr2) (v : Scalar) (i : Int) (n : Nat)
    (hsp : A.sparseTag = false)
    (h1 : 1 ≤ i)
    (h2 : (i - 1).toNat < A.dataF.length)
    (hc : castAssign A.dtype v = some v) :
    set_val (n + 1) A v [.numI i] = .okA { A with dataF := A.dataF.set (i - 1).toNat v }
    ∧ call_linear { A with dataF := A.dataF.set (i - 1).toNat v } i = .ok v := by
  constructor
  · simp only [set_val, parse_args_one_pos A i h1,
      try_standard_lin_ok A v _ hsp h2 hc]
  · simp only [call_linear]
    rw [if_pos (by omega : (0 : Int) ≤ i - 1)]
    rw [get?_set_self _ _ _ h2]

theorem C7_roundtrip_for_representable_values_witness :
    castAssign DType.dint (.intS 9) = some (.intS 9)
    ∧ set_val (0 + 1) ⟨1, 2, .dint, [.intS 1, .intS 2], false⟩ (.intS 9) [.numI 1]
        = .okA ⟨1, 2, .dint, [.intS 9, .intS 2], false⟩
    ∧ call_linear ⟨1, 2, .dint, [.intS 9, .intS 2], false⟩ 1 = .ok (.intS 9) := by
  have h := C7_roundtrip_for_representable_values
    ⟨1, 2, .dint, [.intS 1, .intS 2], false⟩ (.intS 9) 1 0 rfl (by decide) (by decide) rfl
  exact ⟨rfl, h.1, h.2⟩

/-- Claim C8: `execute("x = 5;", session)` produces no printed output but
binds `x = 5`, while `execute("x = 5", session)` binds `x = 5` and prints
`x = 5`: the trailing semicolon suppresses the echo of a single simple
assignment but not its effect. -/
theorem C8_semicolon_suppression :
    execute_model 100 "x = 5;" [] = ([("x", MVal.intM 5)], [], none)
    ∧ execute_model 100 "x = 5" [] = ([("x", MVal.intM 5)], ["x = 5"], none) := by
  constructor
  · decide
  · decide

/-- Claim C9: every constructed array value has rank at least 2: a scalar
input is normalized to 1x1 and a 1-D sequence of length n to a 1xn row,
and every operation that yields an array passes its result buffer through
the constructor again, so transposes and scalar reads also have rank at
least 2. -/
theorem C9_rank_at_least_two : ∀ (s : List Nat) (n : Nat),
    2 ≤ (normalize_shape s).length
    ∧ normalize_shape [] = [1, 1]
    ∧ normalize_shape [n] = [1, n]
    ∧ 2 ≤ (transpose_shape s).length
    ∧ 2 ≤ read_scalar_shape.length := by
  intro s n
  exact ⟨normalize_shape_rank s, rfl, rfl, normalize_shape_rank s.reverse, by decide⟩

/-- Claim C10: whenever the scanner reaches a quote character that opens
a string literal (not a transpose) and no further quote occurs in the
input, `tokenize` does not raise: it terminates and yields a STRING token
whose value is all remaining text up to the end of the input, followed by
the end-of-input token. -/
theorem C10_unterminated_string_tokenizes (fuel : Nat) (st : LexSt) (rest2 : List Char)
    (hrest : st.rest = quoteChar :: rest2)
    (htr : transpose_context st.tokensRev st.spaceSkipped = false)
    (hnoq : rest2.all (fun c => c != quoteChar) = true) :
    tokenize_loop (fuel + 2) st
      = .ok ((Token.mk "STRING" (String.mk rest2) st.line :: st.tokensRev).reverse
          ++ [Token.mk "EOF" "" st.line]) := by
  obtain ⟨rest, line, sp, toks⟩ := st
  simp only at hrest htr ⊢
  subst hrest
  have hstep : tokenize_loop (fuel + 1 + 1) ⟨quoteChar :: rest2, line, sp, toks⟩
      = if transpose_context toks sp = true then
          tokenize_loop (fuel + 1) ⟨rest2, line, false, ⟨"OP", quoteStr, line⟩ :: toks⟩
        else
          match read_string rest2 line with
          | (t, r) => tokenize_loop (fuel + 1) ⟨r, line, false, t :: toks⟩ := rfl
  rw [hstep, htr]
  simp only [Bool.false_eq_true, if_false, read_string_unterminated rest2 line hnoq]
  rfl

theorem C10_unterminated_string_tokenizes_witness :
    transpose_context [⟨"OP", "=", 1⟩, ⟨"ID", "x", 1⟩] true = false
    ∧ (['a', 'b', 'c'].all (fun c => c != quoteChar)) = true
    ∧ tokenize_loop (3 + 2)
        ⟨[quoteChar, 'a', 'b', 'c'], 1, true, [⟨"OP", "=", 1⟩, ⟨"ID", "x", 1⟩]⟩
      = .ok [⟨"ID", "x", 1⟩, ⟨"OP", "=", 1⟩, ⟨"STRING", "abc", 1⟩, ⟨"EOF", "", 1⟩] := by
  refine ⟨by decide, by decide, ?_⟩
  exact C10_unterminated_string_tokenizes 3
    ⟨[quoteChar, 'a', 'b', 'c'], 1, true, [⟨"OP", "=", 1⟩, ⟨"ID", "x", 1⟩]⟩
    ['a', 'b', 'c'] rfl (by decide) (by decide)

end MathexLab
